import Mathlib

/-!
Shallow embedding of the vibe web framework (Go), covering the middleware
composition core: the response sink, the response-capture boundary
(middleware ResponseCapturer), the recovery and timeout middleware
(middleware package, httpx variant), the httpx error helpers and handler
adapter, the chain composer and router/group facade (vibe.go), and the
older part_002/part_005 variant's route-dispatch closure.

Machine integers (time.Duration = int64 nanoseconds) are modelled as Int;
HTTP status codes as Nat.  Go `error` values are modelled by their message
string (`Option String`, none = nil).  The stdlib JSON encoder is an
external collaborator and is modelled as rendering the error object
literally, without escaping.
-/

namespace Vibe

/-- One operation forwarded to the underlying http.ResponseWriter.  A
rejected Write is recorded as `failedWrite` (the sink forwards nothing and
reports the error, as the repository's errorResponseWriter test double does). -/
inductive Ev
  | header (status : Nat)
  | body (bytes : String) (n : Nat)
  | failedWrite (bytes : String) (e : String)
  deriving Repr, DecidableEq

/-- The underlying response sink.  `script` is an oracle giving the outcome of
successive Write calls (none / exhausted = success, some e = the sink returns
error e); `events` is the trace of operations, oldest first. -/
structure Sink where
  script : List (Option String)
  events : List Ev
  deriving Repr, DecidableEq

/-- ResponseWriter.WriteHeader on the underlying sink. -/
def Sink.writeHeader (w : Sink) (status : Nat) : Sink :=
  { w with events := w.events ++ [Ev.header status] }

/-- Result of a Write call on a sink: updated sink, byte count, error. -/
structure WriteRes where
  w : Sink
  n : Nat
  err : Option String
  deriving Repr, DecidableEq

/-- ResponseWriter.Write on the underlying sink, consuming the oracle script. -/
def Sink.write (w : Sink) (b : String) : WriteRes :=
  match w.script with
  | [] => ⟨{ w with events := w.events ++ [Ev.body b b.length] }, b.length, none⟩
  | none :: rest =>
      ⟨{ script := rest, events := w.events ++ [Ev.body b b.length] }, b.length, none⟩
  | some e :: rest =>
      ⟨{ script := rest, events := w.events ++ [Ev.failedWrite b e] }, 0, some e⟩

/-! ### ResponseCapturer (middleware package, part_006 lines 99-135) -/

/-- ResponseCapturer wraps a ResponseWriter and captures errors. -/
structure ResponseCapturer where
  underlying : Sink
  Err : Option String
  deriving Repr, DecidableEq

/-- NewResponseCapturer creates a capturer over a sink, with no error yet. -/
def NewResponseCapturer (w : Sink) : ResponseCapturer :=
  { underlying := w, Err := none }

/-- setError: `r.Err = err` (unconditional assignment). -/
def ResponseCapturer.setError (r : ResponseCapturer) (e : String) : ResponseCapturer :=
  { r with Err := some e }

/-- Result of ResponseCapturer.Write: updated capturer, byte count, error. -/
structure CapWrite where
  r : ResponseCapturer
  n : Nat
  err : Option String
  deriving Repr, DecidableEq

/-- ResponseCapturer.Write forwards to the underlying Write and records the
error, if any, before returning it unchanged. -/
def ResponseCapturer.Write (r : ResponseCapturer) (b : String) : CapWrite :=
  let res := r.underlying.write b
  let r' : ResponseCapturer := { r with underlying := res.w }
  match res.err with
  | some e => ⟨r'.setError e, res.n, some e⟩
  | none => ⟨r', res.n, none⟩

/-- ResponseCapturer.WriteHeader records status codes ≥ 400 (StatusBadRequest)
as errors, then forwards the status write to the underlying sink. -/
def ResponseCapturer.WriteHeader (r : ResponseCapturer) (statusCode : Nat) : ResponseCapturer :=
  let r' := if 400 ≤ statusCode
    then r.setError ("response status code: " ++ toString statusCode)
    else r
  { r' with underlying := r'.underlying.writeHeader statusCode }

/-- ResponseCapturer.Error returns the captured error. -/
def ResponseCapturer.Error (r : ResponseCapturer) : Option String := r.Err

/-! ### httpx helpers (httpx/errors.go, part_011 JSON, part_009 adapter) -/

/-- The JSON error body rendered by JSONErrorResponder via httpx.JSON:
an object with a single "error" field (encoder modelled without escaping). -/
def jsonError (msg : String) : String :=
  "\x7b\"error\":\"" ++ msg ++ "\"\x7d"

/-- httpx.JSON: sets the Content-Type header (not an observable write event),
writes the status header, then writes the encoded body, returning the
encoder's (i.e. the body write's) error. -/
def httpxJSON (w : Sink) (body : String) (statusCode : Nat) : Sink × Option String :=
  let w1 := w.writeHeader statusCode
  let res := w1.write body
  (res.w, res.err)

/-- httpx.Error via JSONErrorResponder.Error: a nil error becomes
"unknown error", then the JSON error body is written with the given status. -/
def httpxError (w : Sink) (err : Option String) (status : Nat) : Sink × Option String :=
  let message := match err with
    | some m => m
    | none => "unknown error"
  httpxJSON w (jsonError message) status

/-- httpx.InternalError: wraps the error as "internal server error: <msg>"
(or the bare message when nil) and responds with status 500. -/
def InternalError (w : Sink) (err : Option String) : Sink × Option String :=
  let e := match err with
    | none => "internal server error"
    | some m => "internal server error: " ++ m
  httpxError w (some e) 500

/-- The body InternalError writes for a wrapped error message. -/
def internalBody (msg : String) : String :=
  jsonError ("internal server error: " ++ msg)

/-! ### Handlers, panics and the adapter -/

/-- A Go panic value: either a value implementing the error interface, or any
other value, whose fmt "%v" text representation is recorded. -/
inductive PanicValue
  | err (msg : String)
  | str (s : String)
  deriving Repr, DecidableEq

/-- The rec.(error) / fmt.Errorf("%v", rec) normalisation used by Recovery. -/
def PanicValue.toErr : PanicValue → String
  | .err m => m
  | .str s => s

/-- Outcome of running a handler function.  `ret err` is a normal return;
`panicked v` is a panic unwinding the current goroutine; `crashed v` is an
unrecovered panic on a spawned goroutine, which terminates the whole process
and cannot be recovered by any enclosing layer. -/
inductive Outcome
  | ret (err : Option String)
  | panicked (v : PanicValue)
  | crashed (v : PanicValue)
  deriving Repr, DecidableEq

/-- Result of a handler invocation: the sink afterwards, the wall-clock
nanoseconds the invocation took (used by the timeout race), the messages
logged through the injected logger, and the outcome. -/
structure FnRes where
  w : Sink
  elapsed : Nat
  log : List String
  out : Outcome
  deriving Repr, DecidableEq

/-- An inbound HTTP request: the parts of *http.Request the embedded code
inspects (method and URL path). -/
structure Req where
  method : String
  path : String
  deriving Repr, DecidableEq

/-- httpx.HandlerFunc: a route handler returning an error. -/
abbrev HandlerFn := Sink → Req → FnRes

/-- httpx.HandlerFunc.ServeHTTP (part_009): runs the handler; a returned
error is converted to an InternalError response, and if writing that
response itself fails, the adapter panics with the write error. -/
def ServeHTTP (h : HandlerFn) (w : Sink) (r : Req) : FnRes :=
  let res := h w r
  match res.out with
  | .ret none => res
  | .ret (some e) =>
      let p := InternalError res.w (some e)
      match p.2 with
      | none => { res with w := p.1, out := .ret none }
      | some we => { res with w := p.1, out := .panicked (.err we) }
  | .panicked _ => res
  | .crashed _ => res

/-- A middleware in the httpx variant: func(http.Handler) http.Handler. -/
abbrev Middleware := HandlerFn → HandlerFn

/-- middleware.Recovery (part_006 lines 51-78).  The injected logger is
modelled by the `log` component of the result.  A panic raised while
`next.ServeHTTP` unwinds this goroutine is recovered, normalised, logged and
answered with InternalError; a failure to write that response is logged only.
A `crashed` outcome is a panic on another goroutine: recover in this
goroutine cannot observe it, so it passes through. -/
def Recovery (next : HandlerFn) : HandlerFn := fun w r =>
  let res := ServeHTTP next w r
  match res.out with
  | .ret _ => { res with out := .ret none }
  | .panicked v =>
      let e := v.toErr
      let p := InternalError res.w (some e)
      let log2 := match p.2 with
        | some we => ["failed to write error response: " ++ we]
        | none => []
      { w := p.1, elapsed := res.elapsed,
        log := res.log ++ ["recovered from panic: " ++ e] ++ log2, out := .ret none }
  | .crashed _ => res

/-- The events a run added to a sink (the operations the handler performed
through the capture boundary). -/
def newEvents (w w' : Sink) : List Ev :=
  w'.events.drop w.events.length

/-- The final Err of a ResponseCapturer after forwarding the given trace of
operations: the last write failure or status ≥ 400, if any (setError
overwrites, so the most recent error wins). -/
def capturedFrom (evs : List Ev) : Option String :=
  evs.foldl
    (fun acc ev =>
      match ev with
      | Ev.header s => if 400 ≤ s then some ("response status code: " ++ toString s) else acc
      | Ev.body _ _ => acc
      | Ev.failedWrite _ e => some e)
    none

/-- middleware.WithTimeout (part_006 lines 14-49).  The wrapped handler runs
on a spawned goroutine, writing through a ResponseCapturer over w; the
controlling flow waits on the completion-vs-deadline race.  The race is
modelled by comparing the handler's elapsed time with the duration d
(int64 nanoseconds): completion strictly before the deadline selects the
done branch, which returns the capturer's recorded error; otherwise the ctx
branch writes the 408 "request timed out" response and the goroutine is
abandoned (its eventual concurrent writes on w are the documented race and
are not modelled).  A panic inside the spawned goroutine is not recovered
there and terminates the process (`crashed`), whatever the race does. -/
def WithTimeout (d : Int) (next : HandlerFn) : HandlerFn := fun w r =>
  let res := ServeHTTP next w r
  match res.out with
  | .panicked v => { res with out := .crashed v }
  | .crashed v => { res with out := .crashed v }
  | .ret _ =>
      if (res.elapsed : Int) < d then
        { res with out := .ret (capturedFrom (newEvents w res.w)) }
      else
        let p := httpxError w (some "request timed out") 408
        ⟨p.1, d.toNat, [], .ret p.2⟩

/-- chainMiddleware (vibe.go lines 147-152): middlewares are applied in
reverse order, so the first middleware in the list is the outermost wrapper. -/
def chainMiddleware (h : HandlerFn) (mws : List Middleware) : HandlerFn :=
  mws.foldr (fun m acc => m acc) h

/-- The default timeout in New (vibe.go line 115): 60 seconds, in
nanoseconds (time.Duration). -/
def defaultTimeout : Int := 60000000000

/-- The global middleware list installed by New (vibe.go lines 127-133) in
the default configuration: Recovery first, then WithTimeout, so Recovery is
the outermost wrapper. -/
def defaultMiddlewares (d : Int) : List Middleware :=
  [Recovery, WithTimeout d]

/-- The handler registerRoute (vibe.go lines 155-160) binds on the mux for a
route registered on a default-configuration router with no extra middleware. -/
def defaultChain (d : Int) (h : HandlerFn) : HandlerFn :=
  chainMiddleware h (defaultMiddlewares d)

/-- Router.NotFound (vibe.go lines 327-339): the custom handler is chained
with the global middlewares and registered under the pattern "/", guarded so
that the root path itself is not handled. -/
def notFoundWrapper (mws : List Middleware) (handler : HandlerFn) : HandlerFn :=
  let chained := chainMiddleware handler mws
  fun w req =>
    if req.path ≠ "/" then ServeHTTP chained w req
    else ⟨w, 0, [], .ret none⟩

/-! ### The part_002/part_005 variant's route dispatch -/

/-- http.Error from the standard library: plain-text status write followed by
the message and a newline. -/
def httpError (w : Sink) (msg : String) (code : Nat) : Sink :=
  ((w.writeHeader code).write (msg ++ "\n")).w

/-- The closure part_002's registerRoute (lines 131-146) registers on the
mux: a mismatched method is answered 200 without body when the route's
method is not GET and the request is a preflight OPTIONS, else 405; a
matching method runs the chained handler and converts a returned error into
a logged plain-text 500. -/
def registerRouteDispatch (method : String) (chained : HandlerFn) : HandlerFn :=
  fun w req =>
    if req.method ≠ method then
      if method ≠ "GET" ∧ req.method = "OPTIONS" then
        ⟨w.writeHeader 200, 0, [], .ret none⟩
      else
        ⟨httpError w "Method not allowed" 405, 0, [], .ret none⟩
    else
      let res := chained w req
      match res.out with
      | .ret none => res
      | .ret (some e) =>
          { res with
            w := httpError res.w e 500,
            log := res.log ++
              ["Error handling " ++ req.method ++ " " ++ req.path ++ ": " ++ e],
            out := .ret none }
      | .panicked v => { res with out := .panicked v }
      | .crashed v => { res with out := .crashed v }

/-! ### Go slices and the Group facade (vibe.go lines 193-290)

Group middleware lists are Go slices built with `append`.  A Go slice is a
view (array pointer, length) into a backing array whose size is the
capacity; `append` writes in place into spare capacity of the shared
backing array and only allocates (copying) when capacity is exhausted,
doubling the capacity for small slices.  Middlewares are identified here by
abstract numeric labels, which is all the aliasing claims need. -/

/-- The heap of backing arrays; an array's list length is its capacity. -/
structure Mem where
  arrs : List (List Nat)
  deriving Repr, DecidableEq

/-- A Go slice value: backing-array id and length. -/
structure GoSlice where
  arr : Nat
  len : Nat
  deriving Repr, DecidableEq

/-- cap(s): the size of the backing array. -/
def Mem.capOf (m : Mem) (s : GoSlice) : Nat :=
  (m.arrs.getD s.arr []).length

/-- The elements the slice views: the first `len` cells of its array. -/
def Mem.view (m : Mem) (s : GoSlice) : List Nat :=
  (m.arrs.getD s.arr []).take s.len

/-- Store x into cell i of array a. -/
def Mem.writeAt (m : Mem) (a i x : Nat) : Mem :=
  { arrs := m.arrs.set a ((m.arrs.getD a []).set i x) }

/-- Go append(s, xs...): write into the shared backing array when the
elements fit within capacity, otherwise allocate a fresh array (at least
doubling the capacity, as Go's growth does for small slices) and copy. -/
def Mem.goAppend (m : Mem) (s : GoSlice) (xs : List Nat) : Mem × GoSlice :=
  let need := s.len + xs.length
  if need ≤ m.capOf s then
    let m' := (xs.foldl (fun (p : Mem × Nat) x => (p.1.writeAt s.arr p.2 x, p.2 + 1))
      (m, s.len)).1
    (m', ⟨s.arr, need⟩)
  else
    let newcap := max need (2 * m.capOf s)
    let contents := (m.view s ++ xs) ++ List.replicate (newcap - need) 0
    ({ arrs := m.arrs ++ [contents] }, ⟨m.arrs.length, need⟩)

/-- A route group: accumulated path prefix and middleware slice. -/
structure GGroup where
  pfx : String
  middleware : GoSlice
  deriving Repr, DecidableEq

/-- Router.Group (vibe.go lines 209-215): the variadic argument slice is the
group's middleware slice (a fresh array with capacity = length). -/
def newGroup (m : Mem) (p : String) (mws : List Nat) : Mem × GGroup :=
  ({ arrs := m.arrs ++ [mws] }, { pfx := p, middleware := ⟨m.arrs.length, mws.length⟩ })

/-- Group.Use (vibe.go lines 220-223): g.middleware = append(g.middleware, mw). -/
def GGroup.Use (m : Mem) (g : GGroup) (mw : Nat) : Mem × GGroup :=
  let p := m.goAppend g.middleware [mw]
  (p.1, { g with middleware := p.2 })

/-- Group.Group (vibe.go lines 283-290): the sub-group's prefix is the
concatenation and its middleware slice is append(g.middleware, mws...). -/
def GGroup.Group (m : Mem) (g : GGroup) (p : String) (mws : List Nat) : Mem × GGroup :=
  let q := m.goAppend g.middleware mws
  (q.1, { pfx := g.pfx ++ p, middleware := q.2 })

/-! ### Concrete instances used as test inputs -/

/-- A fresh sink on which every write succeeds. -/
def sink0 : Sink := ⟨[], []⟩

/-- A concrete GET request. -/
def req0 : Req := ⟨"GET", "/hello"⟩

/-- A handler that writes a 200 status, takes 5ns, returns nil. -/
def okh : HandlerFn := fun w _ => ⟨w.writeHeader 200, 5, [], .ret none⟩

/-- A handler that panics with the given value. -/
def panicHandler (v : PanicValue) : HandlerFn := fun w _ => ⟨w, 0, [], .panicked v⟩

/-- A handler that returns the error "x" without writing. -/
def errh : HandlerFn := fun w _ => ⟨w, 0, [], .ret (some "x")⟩

/-- A middleware that marks its position by emitting a header event with the
given tag before delegating inward, in the Go middleware shape. -/
def tagMW (t : Nat) : Middleware := fun next => fun w r =>
  ServeHTTP next (w.writeHeader t) r

/-- A capturer over a sink whose next write fails with "werr". -/
def capFail : ResponseCapturer := NewResponseCapturer ⟨[some "werr"], []⟩

/-- A capturer over a sink whose next write succeeds. -/
def capOk : ResponseCapturer := NewResponseCapturer ⟨[none], []⟩

/-- A sink whose first write fails with "wfail". -/
def sinkFail : Sink := ⟨[some "wfail"], []⟩

/-! The group-aliasing scenario: a group with three middlewares added via
Use (its slice then has length 3 in a capacity-4 backing array), a sub-group
created with one extra middleware 9 (which lands in the shared spare
capacity), then one more parent Use of middleware 4. -/

/-- Parent group "/a", no initial middleware. -/
def c5g0 : Mem × GGroup := newGroup ⟨[]⟩ "/a" []

/-- After g.Use(1). -/
def c5g1 : Mem × GGroup := GGroup.Use c5g0.1 c5g0.2 1

/-- After g.Use(2). -/
def c5g2 : Mem × GGroup := GGroup.Use c5g1.1 c5g1.2 2

/-- After g.Use(3): length 3, capacity 4. -/
def c5g3 : Mem × GGroup := GGroup.Use c5g2.1 c5g2.2 3

/-- The sub-group c := g.Group("/b", 9), sharing g's backing array. -/
def c5child : Mem × GGroup := GGroup.Group c5g3.1 c5g3.2 "/b" [9]

/-- The parent's g.Use(4) after the child's creation. -/
def c5after : Mem × GGroup := GGroup.Use c5child.1 c5g3.2 4

/-! ## Theorems -/

/-- C1: in the default router configuration, a registered handler that
panics during the timed execution is NOT caught by the recovery middleware:
the panic unwinds the goroutine that WithTimeout spawned, which has no
recover, and the enclosing Recovery wrapper runs on the parent goroutine
where recover cannot observe it.  The process crashes with no 500-class
response (the sink stays untouched).  This evaluates the default chain at
the failing input of the code_bug report. -/
theorem c1_default_chain_panic_crashes :
    ServeHTTP (defaultChain defaultTimeout (panicHandler (.str "boom"))) sink0 req0
      = ⟨sink0, 0, [], .crashed (.str "boom")⟩ := by
  decide

/-- C2: for every timed request whose handler invocation returns (does not
panic), the completion-vs-deadline race fires exactly one of its two
branches: completion strictly before the deadline propagates the outcome
recorded by the capture boundary and adds no write of the wrapper's own,
while deadline expiry makes the wrapper write exactly one timeout error
response (one httpx.Error call: one status write and one body write). -/
theorem c2_timeout_race_one_branch (d : Int) (h : HandlerFn) (w : Sink) (r : Req)
    (hret : ∃ e, (ServeHTTP h w r).out = Outcome.ret e) :
    (((ServeHTTP h w r).elapsed : Int) < d →
        WithTimeout d h w r =
          { ServeHTTP h w r with
            out := .ret (capturedFrom (newEvents w (ServeHTTP h w r).w)) })
    ∧ (¬ (((ServeHTTP h w r).elapsed : Int) < d) →
        WithTimeout d h w r =
          ⟨(httpxError w (some "request timed out") 408).1, d.toNat, [],
            .ret (httpxError w (some "request timed out") 408).2⟩) := by
  obtain ⟨e, he⟩ := hret
  constructor <;> intro hlt <;> simp [WithTimeout, he, hlt]

/-- C2 witness: with a 5ns handler under a 100ns deadline the done branch
fires and the wrapper propagates the captured outcome. -/
theorem c2_witness :
    WithTimeout 100 okh sink0 req0 =
      { ServeHTTP okh sink0 req0 with
        out := .ret (capturedFrom (newEvents sink0 (ServeHTTP okh sink0 req0).w)) } :=
  (c2_timeout_race_one_branch 100 okh sink0 req0 ⟨none, rfl⟩).1 (by decide)

/-- C3: for every configured duration d ≤ 0 and every request whose handler
invocation returns (does not panic), the wrapper resolves to the timeout
branch — it writes the 408 "request timed out" error response and returns
normally (a total function: no deadlock, and the outcome is a return, not a
panic). -/
theorem c3_nonpositive_timeout (d : Int) (hd : d ≤ 0) (h : HandlerFn) (w : Sink) (r : Req)
    (hret : ∃ e, (ServeHTTP h w r).out = Outcome.ret e) :
    WithTimeout d h w r =
      ⟨(httpxError w (some "request timed out") 408).1, d.toNat, [],
        .ret (httpxError w (some "request timed out") 408).2⟩ := by
  obtain ⟨e, he⟩ := hret
  have hnl : ¬ (((ServeHTTP h w r).elapsed : Int) < d) := by
    intro hc
    omega
  simp [WithTimeout, he, hnl]

/-- C3 witness: a zero duration forces the timeout branch on a handler that
would have answered 200. -/
theorem c3_witness :
    WithTimeout 0 okh sink0 req0 =
      ⟨(httpxError sink0 (some "request timed out") 408).1, (0 : Int).toNat, [],
        .ret (httpxError sink0 (some "request timed out") 408).2⟩ :=
  c3_nonpositive_timeout 0 (by decide) okh sink0 req0 ⟨none, rfl⟩

/-- C4 counterexample: composing once over [A] ++ [B] is NOT the same as
composing the terminal handler over [A] first and then composing [B] around
that result — the first element of a sequence is the outermost wrapper, so
the two orders emit their tag events in opposite order. -/
theorem c4_counterexample :
    ServeHTTP (chainMiddleware okh ([tagMW 201] ++ [tagMW 202])) sink0 req0
      ≠ ServeHTTP (chainMiddleware (chainMiddleware okh [tagMW 201]) [tagMW 202]) sink0 req0 := by
  decide

/-- C4 (amended): composing once over the concatenation M1 ++ M2 equals
composing the terminal handler over M2 first and then composing M1 around
that result; equivalently, two pre-built chains compose by concatenating
their sequences, the first element of the combined sequence being the
outermost wrapper. -/
theorem c4_chain_append (h : HandlerFn) (M1 M2 : List Middleware) :
    chainMiddleware h (M1 ++ M2) = chainMiddleware (chainMiddleware h M2) M1 := by
  simp [chainMiddleware, List.foldr_append]

/-- C5: Group.Group builds the sub-group's middleware with
append(g.middleware, mws...), which reuses the parent's backing array when
spare capacity exists; the parent's later Use then overwrites the
sub-group's extra middleware in place.  In the scenario, the child's
effective middleware sequence is [1, 2, 3, 9] at creation but becomes
[1, 2, 3, 4] after the parent's Use(4) — the claimed copy semantics fail. -/
theorem c5_parent_use_mutates_child :
    c5child.1.view c5child.2.middleware = [1, 2, 3, 9]
    ∧ c5after.1.view c5child.2.middleware = [1, 2, 3, 4] := by
  decide

/-- C6 counterexample: the capture boundary does NOT retain only the first
observed error — setError assigns unconditionally, so a second observed
error (status 500 after status 400) overwrites the first. -/
theorem c6_counterexample :
    (((NewResponseCapturer sink0).WriteHeader 400).WriteHeader 500).Err
        = some "response status code: 500"
    ∧ (((NewResponseCapturer sink0).WriteHeader 400).WriteHeader 500).Err
        ≠ some "response status code: 400" := by
  decide

/-- C6 (amended): setting a status ≥ 400 records an observed error while
still forwarding the status write to the underlying sink; a failing write
records the underlying error and returns it unchanged; a successful write
forwards the bytes immediately without buffering and leaves the recorded
error alone; the MOST RECENT observed error is the one retained (a later
error overwrites an earlier one, without crashing). -/
theorem c6_capturer_behavior (r : ResponseCapturer) (s : Nat) (b : String)
    (e : String) (rest : List (Option String)) :
    (400 ≤ s →
        (r.WriteHeader s).Err = some ("response status code: " ++ toString s)
        ∧ (r.WriteHeader s).underlying.events = r.underlying.events ++ [Ev.header s])
    ∧ (r.underlying.script = some e :: rest →
        (r.Write b).err = some e ∧ (r.Write b).r.Err = some e
        ∧ (r.Write b).r.underlying.events = r.underlying.events ++ [Ev.failedWrite b e])
    ∧ (r.underlying.script = none :: rest →
        (r.Write b).err = none ∧ (r.Write b).r.Err = r.Err
        ∧ (r.Write b).r.underlying.events = r.underlying.events ++ [Ev.body b b.length]) := by
  refine ⟨fun hh => ?_, fun hh => ?_, fun hh => ?_⟩ <;>
    simp [ResponseCapturer.WriteHeader, ResponseCapturer.Write, ResponseCapturer.setError,
      Sink.write, Sink.writeHeader, hh]

/-- C6 witness: a 404 status is recorded as an error and forwarded; a
rejected write returns the sink's error unchanged; a successful write
returns no error. -/
theorem c6_witness :
    (capFail.WriteHeader 404).Err = some "response status code: 404"
    ∧ (capFail.Write "x").err = some "werr"
    ∧ (capOk.Write "x").err = none :=
  ⟨((c6_capturer_behavior capFail 404 "x" "werr" []).1 (by decide)).1,
   ((c6_capturer_behavior capFail 404 "x" "werr" []).2.1 (by decide)).1,
   ((c6_capturer_behavior capOk 404 "x" "werr" []).2.2 (by decide)).1⟩

/-- C7: a handler that panics with a string value s, wrapped by the recovery
middleware (on a sink whose writes succeed), yields a 500 response whose
body is the InternalError JSON object embedding s — the final conjunct
decomposes the body as pre ++ s ++ post, exhibiting s inside it — and the
log records "recovered from panic: " followed by s. -/
theorem c7_recovery_string_panic (h : HandlerFn) (w : Sink) (r : Req) (s : String)
    (hp : (h w r).out = .panicked (.str s)) (hs : (h w r).w.script = []) :
    ServeHTTP (Recovery h) w r =
      { w := { script := [],
               events := (h w r).w.events ++
                 [Ev.header 500, Ev.body (internalBody s) (internalBody s).length] },
        elapsed := (h w r).elapsed,
        log := (h w r).log ++ ["recovered from panic: " ++ s],
        out := .ret none }
    ∧ internalBody s = "\x7b\"error\":\"internal server error: " ++ s ++ "\"\x7d" := by
  constructor
  · simp [ServeHTTP, Recovery, InternalError, httpxError, httpxJSON, internalBody,
      jsonError, Sink.write, Sink.writeHeader, PanicValue.toErr, hp, hs]
  · simp only [internalBody, jsonError]
    rw [← String.append_assoc]
    simp

/-- C7 witness: the concrete "string panic" handler under Recovery yields
the 500 response with the panic text in body and log. -/
theorem c7_witness :
    ServeHTTP (Recovery (panicHandler (.str "string panic"))) sink0 req0 =
      { w := { script := [],
               events := [Ev.header 500,
                 Ev.body (internalBody "string panic") (internalBody "string panic").length] },
        elapsed := 0,
        log := ["recovered from panic: string panic"],
        out := .ret none } := by
  have hmain :=
    (c7_recovery_string_panic (panicHandler (.str "string panic")) sink0 req0
      "string panic" rfl rfl).1
  simpa [panicHandler, sink0] using hmain

/-- C8 counterexample: the claim that no detected response-write failure is
ever re-raised as a panic is false — the httpx handler adapter
(HandlerFunc.ServeHTTP) panics with the write error when writing its
InternalError response to the sink fails. -/
theorem c8_counterexample :
    (ServeHTTP errh sinkFail req0).out = .panicked (.err "wfail") := by
  decide

/-- C8 (amended): a response-write failure detected inside the recovery
middleware is logged ("failed to write error response: ...") and the
middleware still returns normally; the handler adapter, however, re-raises a
failed error-response write as a panic rather than logging it. -/
theorem c8_write_failure_policy (h : HandlerFn) (w : Sink) (r : Req) (e : String)
    (rest : List (Option String)) :
    (∀ v, (h w r).out = .panicked v → (h w r).w.script = some e :: rest →
        (Recovery h w r).out = .ret none
        ∧ (Recovery h w r).log = (h w r).log ++
            ["recovered from panic: " ++ v.toErr, "failed to write error response: " ++ e])
    ∧ (∀ err, (h w r).out = .ret (some err) → (h w r).w.script = some e :: rest →
        (ServeHTTP h w r).out = .panicked (.err e)) := by
  constructor
  · intro v hp hscript
    constructor <;>
      simp [Recovery, ServeHTTP, InternalError, httpxError, httpxJSON, jsonError,
        Sink.write, Sink.writeHeader, hp, hscript]
  · intro err hp hscript
    simp [ServeHTTP, InternalError, httpxError, httpxJSON, jsonError,
      Sink.write, Sink.writeHeader, hp, hscript]

/-- C8 witness: over a sink whose write fails with "wfail", Recovery logs the
secondary failure and returns normally, while the adapter panics. -/
theorem c8_witness :
    (Recovery (panicHandler (.str "p")) sinkFail req0).out = .ret none
    ∧ (Recovery (panicHandler (.str "p")) sinkFail req0).log =
        ["recovered from panic: p", "failed to write error response: wfail"]
    ∧ (ServeHTTP errh sinkFail req0).out = .panicked (.err "wfail") :=
  ⟨((c8_write_failure_policy (panicHandler (.str "p")) sinkFail req0 "wfail" []).1
      (.str "p") rfl rfl).1,
   by
    have hl := ((c8_write_failure_policy (panicHandler (.str "p")) sinkFail req0 "wfail" []).1
      (.str "p") rfl rfl).2
    simpa [panicHandler, PanicValue.toErr] using hl,
   (c8_write_failure_policy errh sinkFail req0 "wfail" []).2 "x" rfl rfl⟩

/-- C9 counterexample: for a route registered with method GET, a same-path
OPTIONS request is NOT answered with a bare 200 — the part_002 dispatch
closure excludes GET routes from the preflight shortcut and answers 405
"Method not allowed" with a plain-text body instead. -/
theorem c9_counterexample :
    (registerRouteDispatch "GET" okh sink0 ⟨"OPTIONS", "/hello"⟩).w.events
        = [Ev.header 405, Ev.body "Method not allowed\n" 19]
    ∧ (registerRouteDispatch "GET" okh sink0 ⟨"OPTIONS", "/hello"⟩).w.events
        ≠ [Ev.header 200] := by
  decide

/-- C9 (amended): in the part_002 variant, for every route registered with a
non-GET method, a same-path OPTIONS request whose method does not match the
route is answered immediately with a bare 200 status and no body, without
delegating to the middleware chain or the handler (the result is the same
for every chained handler). -/
theorem c9_preflight_non_get (method : String) (hm : method ≠ "GET")
    (chained : HandlerFn) (w : Sink) (r : Req)
    (hr : r.method = "OPTIONS") (hne : r.method ≠ method) :
    registerRouteDispatch method chained w r = ⟨w.writeHeader 200, 0, [], .ret none⟩ := by
  simp [registerRouteDispatch, hne, hr, hm]
  intro heq
  exact absurd (hr.trans heq) hne

/-- C9 witness: a POST-registered route answers a preflight OPTIONS request
with a bare 200 and no body. -/
theorem c9_witness :
    registerRouteDispatch "POST" okh sink0 ⟨"OPTIONS", "/hello"⟩ =
      ⟨sink0.writeHeader 200, 0, [], .ret none⟩ :=
  c9_preflight_non_get "POST" (by decide) okh sink0 ⟨"OPTIONS", "/hello"⟩
    rfl (by decide)

/-- C10: the NotFound wrapper never passes a request for the root path "/"
to the custom handler — it returns with the sink untouched, whatever the
handler is — while every other path reaching it is handled by the custom
handler wrapped in the global middleware chain. -/
theorem c10_notfound_root_guard (mws : List Middleware) (handler : HandlerFn)
    (w : Sink) (req : Req) :
    (req.path = "/" → notFoundWrapper mws handler w req = ⟨w, 0, [], .ret none⟩)
    ∧ (req.path ≠ "/" → notFoundWrapper mws handler w req
        = ServeHTTP (chainMiddleware handler mws) w req) := by
  constructor <;> intro hp <;> simp [notFoundWrapper, hp]

/-- C10 witness: with no global middleware, a request for "/" leaves the
sink untouched while a request for another path runs the custom handler. -/
theorem c10_witness :
    notFoundWrapper [] okh sink0 ⟨"GET", "/"⟩ = ⟨sink0, 0, [], .ret none⟩
    ∧ notFoundWrapper [] okh sink0 req0
        = ServeHTTP (chainMiddleware okh []) sink0 req0 :=
  ⟨(c10_notfound_root_guard [] okh sink0 ⟨"GET", "/"⟩).1 rfl,
   (c10_notfound_root_guard [] okh sink0 req0).2 (by decide)⟩

end Vibe

